import Mathlib

/-!
Verification development for the stagehand instruction-automation engine.

The source (src/automationParser.ts, src/unnamed/part_000) is shallowly
embedded: JavaScript strings are lists of characters, the action registry is
an association list in insertion order (JS Map preserves insertion order),
page state is an oracle mapping selector strings to element information, and
the instruction runner threads an abstract execution state through an
abstract action-execution oracle (browser side effects are outside the
embedding; their outcomes are the oracle's values).
-/

namespace Stagehand

/-- Strings of the source program, modelled as lists of characters. -/
abbrev Str := List Char

/-- Converts a Lean string literal to the character-list representation. -/
def str (s : String) : Str := s.toList

/-- The double-quote character. -/
def dquoteC : Char := Char.ofNat 34

/-- The single-quote character. -/
def squoteC : Char := Char.ofNat 39

/-- The backslash character. -/
def bslashC : Char := Char.ofNat 92

/-- The backtick character. -/
def btickC : Char := Char.ofNat 96

/-- Whitespace characters recognized by the JavaScript regular expression
class used in the source (space, tab, newline, carriage return, vertical
tab, form feed). -/
def isWsChar (c : Char) : Bool :=
  c == ' ' || c == '\t' || c == '\n' || c == '\r' || c == Char.ofNat 11 || c == Char.ofNat 12

/-- Models `String.prototype.trim`: removes whitespace from both ends. -/
def trimStr (s : Str) : Str :=
  ((s.dropWhile isWsChar).reverse.dropWhile isWsChar).reverse

/-- Models `String.prototype.toLowerCase` on the ASCII inputs the parser
handles. -/
def toLowerStr (s : Str) : Str := s.map Char.toLower

/-- Models `String.prototype.startsWith`. -/
def startsWithStr (s pre : Str) : Bool := List.isPrefixOf pre s

/-- Accumulator loop for `splitWs`; `cur` holds the current word reversed. -/
def splitWsAux : Str → Str → List Str
  | [], cur => if cur.isEmpty then [] else [cur.reverse]
  | c :: rest, cur =>
    if isWsChar c then
      if cur.isEmpty then splitWsAux rest []
      else cur.reverse :: splitWsAux rest []
    else splitWsAux rest (c :: cur)

/-- Models `s.split(/\s+/)` for the trimmed, non-empty strings the parser
applies it to (on such strings the JavaScript split produces exactly the
maximal non-whitespace runs, with no empty fields). -/
def splitWs (s : Str) : List Str := splitWsAux s []

/-- A successfully parsed instruction: `{ actionKey, params }` in the source. -/
structure ParsedAction where
  actionKey : Str
  params : List Str
deriving DecidableEq

/-- Result of `AutomationParser.parseInstruction`: either a parsed action or
an error object `{ error }` (the source never throws from the parser). -/
inductive ParseResult where
  | ok (a : ParsedAction)
  | err (msg : Str)
deriving DecidableEq

/-- A `RegisteredAction` record of src/automationParser.ts (the effectful
`handler` field is not part of the parsing data and is modelled separately
by the runner's execution oracle). -/
structure RegisteredAction where
  keywords : List Str
  minParams : Option Nat
  paramUsage : Str
  opensNewPage : Bool := false
deriving DecidableEq

/-- The `registeredActions` map, as an association list in insertion order. -/
abbrev Registry := List (Str × RegisteredAction)

/-- Models `Map.prototype.get` on the registry. -/
def lookupAction (k : Str) : Registry → Option RegisteredAction
  | [] => none
  | (k₀, a) :: rest => if k = k₀ then some a else lookupAction k rest

/-- The registry built by `registerCoreActions` followed by
`registerAuthActions` in src/automationParser.ts, in insertion order. -/
def standardRegistry : Registry :=
  [ (str "goto",
     { keywords := [str "go", str "to"], minParams := some 1, paramUsage := str "<url>" }),
    (str "click",
     { keywords := [str "click"], minParams := some 1, paramUsage := str "<selector>",
       opensNewPage := true }),
    (str "type",
     { keywords := [str "type"], minParams := some 2, paramUsage := str "<selector> <text>" }),
    (str "wait",
     { keywords := [str "wait"], minParams := some 1, paramUsage := str "<seconds>" }),
    (str "screenshot",
     { keywords := [str "screenshot"], minParams := some 1, paramUsage := str "<filename>" }),
    (str "extract",
     { keywords := [str "extract"], minParams := some 1, paramUsage := str "<selector>" }),
    (str "findelement",
     { keywords := [str "find", str "element"], minParams := some 1,
       paramUsage := str "<selector>" }),
    (str "presskey",
     { keywords := [str "pressKey"], minParams := some 1, paramUsage := str "<key>" }),
    (str "extracthtml",
     { keywords := [str "extractHTML"], minParams := some 1, paramUsage := str "<selector>" }),
    (str "login",
     { keywords := [str "login", str "sign in", str "signin", str "log in"],
       minParams := some 2, paramUsage := str "<username> <password> [selector-prefix]" }),
    (str "signup",
     { keywords := [str "signup", str "sign up", str "register", str "create account"],
       minParams := some 2, paramUsage := str "<email> <password> [username] [country]" }),
    (str "authenticate",
     { keywords := [str "authenticate", str "auth"], minParams := some 2,
       paramUsage := str "<username> <password> [fullname]" }) ]

/-- Element facts queried by the visibility check of `trySelectors`
(src/automationParser.ts lines 894-912): bounding-client rectangle size,
whether the node is an `HTMLElement`, whether `offsetParent` is non-null,
and the computed `visibility` / `display` / `opacity` style strings. -/
structure ElementInfo where
  rectWidth : Nat
  rectHeight : Nat
  isHTMLElement : Bool
  hasOffsetParent : Bool
  styleVisibility : Str
  styleDisplay : Str
  styleOpacity : Str
deriving DecidableEq

/-- A page as observed through `page.$`: each selector string either matches
an element (with its layout and style facts) or matches nothing. A probe
that throws is caught by `trySelectors` and treated like no match, so it is
folded into `none`. -/
abbrev DomModel := Str → Option ElementInfo

/-- The mutable state of an `AutomationParser` instance that its methods can
read: the active page and the action registry (the registry is populated in
the constructor and never mutated afterwards). -/
structure ParserState where
  page : DomModel
  registeredActions : Registry

/-- `AutomationParser.parseInstruction` of src/automationParser.ts
(lines 732-783), translated branch by branch. -/
def parseInstruction (st : ParserState) (instructionLine : Str) : ParseResult :=
  let trimmedLine := trimStr instructionLine
  if trimmedLine = [] then .err (str "Empty instruction line.")
  else if startsWithStr (toLowerStr trimmedLine) (str "for ") then
    .ok { actionKey := str "skip", params := [] }
  else if startsWithStr (toLowerStr trimmedLine) (str "go to ") then
    .ok { actionKey := str "goto", params := [trimStr (trimmedLine.drop 6)] }
  else if startsWithStr (toLowerStr trimmedLine) (str "sign in ") then
    let parts := splitWs trimmedLine
    if parts.length < 4 then
      .err (str "Insufficient parameters for sign in. Expected: sign in <username> <password> [selector-prefix]")
    else
      .ok { actionKey := str "login", params := parts.drop 2 }
  else if startsWithStr (toLowerStr trimmedLine) (str "sign up ") then
    let parts := splitWs trimmedLine
    if parts.length < 4 then
      .err (str "Insufficient parameters for sign up. Expected: sign up <email> <password> [username] [country]")
    else
      .ok { actionKey := str "signup", params := parts.drop 2 }
  else
    let parts := splitWs trimmedLine
    let actionKey := toLowerStr (parts.headD [])
    let params := parts.drop 1
    match lookupAction actionKey st.registeredActions with
    | none => .err (str "Unknown action key: " ++ actionKey ++ str ".")
    | some registeredAction =>
      match registeredAction.minParams with
      | some m =>
        if 0 < m ∧ params.length < m then
          .err (str "Insufficient parameters for " ++ actionKey ++ str ". Expected: "
                ++ registeredAction.paramUsage)
        else
          .ok { actionKey := actionKey, params := params }
      | none => .ok { actionKey := actionKey, params := params }

/-- Result of the visibility evaluation performed by `trySelectors` on a
matched element (src/automationParser.ts lines 894-912), translated branch
by branch; the dead `offsetParent !== document.body` conjunct (always true
when `offsetParent` is null) is folded accordingly. -/
def isVisibleEl (el : ElementInfo) : Bool :=
  if el.rectWidth == 0 || el.rectHeight == 0 then false
  else if el.isHTMLElement then
    if !el.hasOffsetParent then false
    else if el.styleVisibility == str "hidden" || el.styleDisplay == str "none"
            || el.styleOpacity == str "0" then false
    else true
  else
    !(el.rectWidth == 0) && !(el.rectHeight == 0)

/-- `AutomationParser.trySelectors` of src/automationParser.ts
(lines 885-924): probe each candidate in order, skip candidates that do not
match, skip matching-but-invisible candidates, return the first candidate
that matches a visible element, and `null` (here `none`) when none does. -/
def trySelectors (dom : DomModel) : List Str → Option Str
  | [] => none
  | selector :: rest =>
    match dom selector with
    | none => trySelectors dom rest
    | some el => if isVisibleEl el then some selector else trySelectors dom rest

/-- The quote-stripping sanitization `selector.replace(/['"`]/g, '').trim()`. -/
def cleanSelectorOf (selector : Str) : Str :=
  trimStr (selector.filter (fun c => !(c == squoteC || c == dquoteC || c == btickC)))

/-- `AutomationParser.generateSmartSelectors` of src/automationParser.ts
(lines 868-882), with the twenty template entries in source order. -/
def generateSmartSelectors (selector : Str) : List Str :=
  let cleanSelector := cleanSelectorOf selector
  [ selector,
    str "input[placeholder*=\x22" ++ cleanSelector ++ str "\x22]",
    str "textarea[placeholder*=\x22" ++ cleanSelector ++ str "\x22]",
    str "[placeholder*=\x22" ++ cleanSelector ++ str "\x22]",
    str "input[aria-label*=\x22" ++ cleanSelector ++ str "\x22]",
    str "[aria-label*=\x22" ++ cleanSelector ++ str "\x22]",
    str "input[name*=\x22" ++ cleanSelector ++ str "\x22]",
    str "[name*=\x22" ++ cleanSelector ++ str "\x22]",
    str "input[id*=\x22" ++ cleanSelector ++ str "\x22]",
    str "[id*=\x22" ++ cleanSelector ++ str "\x22]",
    str "#" ++ cleanSelector,
    str "button:has-text(\x22" ++ cleanSelector ++ str "\x22)",
    str "a:has-text(\x22" ++ cleanSelector ++ str "\x22)",
    str "text=\x22" ++ cleanSelector ++ str "\x22",
    str "*:has-text(\x22" ++ cleanSelector ++ str "\x22)",
    str "." ++ cleanSelector,
    str "[data-testid=\x22" ++ cleanSelector ++ str "\x22]",
    str "[data-test=\x22" ++ cleanSelector ++ str "\x22]",
    str "[data-cy=\x22" ++ cleanSelector ++ str "\x22]",
    str "[data-qa=\x22" ++ cleanSelector ++ str "\x22]" ]

/-- Models `String.prototype.includes` (substring containment). -/
def containsSubstr : Str → Str → Bool
  | _, [] => true
  | [], _ :: _ => false
  | c :: rest, needle =>
    if List.isPrefixOf needle (c :: rest) then true else containsSubstr rest needle

/-- Signup-indicating keyword set of `detectAuthenticationType`. -/
def signupKeywords : List Str :=
  [str "sign up", str "register", str "create account", str "join now", str "get started"]

/-- Login-indicating keyword set of `detectAuthenticationType`. -/
def loginKeywords : List Str :=
  [str "sign in", str "login", str "log in", str "member login", str "sign on"]

/-- Page facts queried by `detectAuthenticationType`: the body text (the
source lowercases it before matching) and the two structural probes (a name
input that is neither an email nor a password field, and a confirm-password
input). -/
structure AuthPageModel where
  bodyText : Str
  hasNameField : Bool
  hasConfirmPasswordField : Bool

/-- `AutomationParser.detectAuthenticationType` of src/automationParser.ts
(lines 349-385): count keyword-set hits in the lowercased page text and
classify as signup when the signup count strictly exceeds the login count or
either structural signal is present; otherwise login. -/
def detectAuthenticationType (p : AuthPageModel) : Str :=
  let pageContent := toLowerStr p.bodyText
  let signupMatches := signupKeywords.countP (fun kw => containsSubstr pageContent (toLowerStr kw))
  let loginMatches := loginKeywords.countP (fun kw => containsSubstr pageContent (toLowerStr kw))
  if signupMatches > loginMatches || p.hasNameField || p.hasConfirmPasswordField then str "signup"
  else str "login"

/-- The prefix string `selectorPrefix ? selectorPrefix + " " : ""` used by
the auth selector generators. -/
def authPfx (selectorPfx : Str) : Str :=
  if selectorPfx = [] then [] else selectorPfx ++ [' ']

/-- `AutomationParser.generateAuthFieldSelectors` of src/automationParser.ts
(lines 566-663), with each case's selector list in source order; an
unrecognized field type yields the empty list (no switch case pushes). -/
def generateAuthFieldSelectors (fieldType selectorPfx : Str) : List Str :=
  let p := authPfx selectorPfx
  if fieldType = str "username" then
    [ p ++ str "input[id=\x22login_field\x22]",
      p ++ str "input[name=\x22login\x22]",
      p ++ str "input[id=\x22username\x22]",
      p ++ str "input[id=\x22email\x22]",
      p ++ str "input[type=\x22email\x22]:not([aria-hidden=\x22true\x22]):not([hidden])",
      p ++ str "input[name=\x22email\x22]:not([type=\x22hidden\x22]):not([type=\x22checkbox\x22])",
      p ++ str "input[name=\x22username\x22]:not([type=\x22hidden\x22]):not([type=\x22checkbox\x22])",
      p ++ str "input[name=\x22user\x22]:not([type=\x22hidden\x22]):not([type=\x22checkbox\x22])",
      p ++ str "input[name*=\x22mail\x22 i]:not([type=\x22hidden\x22]):not([type=\x22checkbox\x22])",
      p ++ str "input[name*=\x22user\x22 i]:not([type=\x22hidden\x22]):not([type=\x22checkbox\x22])",
      p ++ str "input[name*=\x22login\x22 i]:not([type=\x22hidden\x22]):not([type=\x22checkbox\x22])",
      p ++ str "input[id*=\x22email\x22 i]:not([type=\x22hidden\x22]):not([type=\x22checkbox\x22]):not([id*=\x22confirm\x22 i]):not([id*=\x22keep\x22 i]):not([id*=\x22remember\x22 i]):not([id*=\x22include\x22 i])",
      p ++ str "input[id*=\x22user\x22 i]:not([type=\x22hidden\x22]):not([type=\x22checkbox\x22])",
      p ++ str "input[id*=\x22login\x22 i]:not([type=\x22hidden\x22]):not([type=\x22checkbox\x22])",
      p ++ str "input[placeholder*=\x22email\x22 i]:not([type=\x22hidden\x22])",
      p ++ str "input[placeholder*=\x22username\x22 i]:not([type=\x22hidden\x22])",
      p ++ str "input[placeholder*=\x22user\x22 i]:not([type=\x22hidden\x22])",
      p ++ str "input[aria-label*=\x22email\x22 i]:not([type=\x22checkbox\x22])",
      p ++ str "input[aria-label*=\x22username\x22 i]:not([type=\x22checkbox\x22])",
      p ++ str "input[aria-label*=\x22user\x22 i]:not([type=\x22checkbox\x22])",
      p ++ str "input.username",
      p ++ str "input.email",
      p ++ str "input.login",
      p ++ str "input.form-control:not([type=\x22password\x22]):not([type=\x22checkbox\x22]):not([type=\x22hidden\x22])" ]
  else if fieldType = str "password" then
    [ p ++ str "input[id=\x22password\x22]",
      p ++ str "input[type=\x22password\x22]",
      p ++ str "input[name=\x22password\x22]",
      p ++ str "input[name*=\x22password\x22 i]",
      p ++ str "input[id*=\x22password\x22 i]:not([id*=\x22confirm\x22 i]):not([id*=\x22verify\x22 i])",
      p ++ str "input[placeholder*=\x22password\x22 i]:not([placeholder*=\x22confirm\x22 i])",
      p ++ str "input[aria-label*=\x22password\x22 i]:not([aria-label*=\x22confirm\x22 i])",
      p ++ str "input.password" ]
  else if fieldType = str "confirm-password" then
    [ p ++ str "input[type=\x22password\x22][name*=\x22confirm\x22 i]",
      p ++ str "input[type=\x22password\x22][id*=\x22confirm\x22 i]",
      p ++ str "input[type=\x22password\x22][placeholder*=\x22confirm\x22 i]",
      p ++ str "input[type=\x22password\x22][aria-label*=\x22confirm\x22 i]",
      p ++ str "input[type=\x22password\x22][name*=\x22verify\x22 i]",
      p ++ str "input[type=\x22password\x22][id*=\x22verify\x22 i]",
      p ++ str "input[type=\x22password\x22][name*=\x22retype\x22 i]",
      p ++ str "input[type=\x22password\x22][id*=\x22retype\x22 i]",
      p ++ str "input[type=\x22password\x22]:nth-of-type(2)" ]
  else if fieldType = str "name" then
    [ p ++ str "input[name*=\x22fullname\x22 i]",
      p ++ str "input[name*=\x22full_name\x22 i]",
      p ++ str "input[name=\x22name\x22]",
      p ++ str "input[id*=\x22fullname\x22 i]",
      p ++ str "input[id*=\x22full_name\x22 i]",
      p ++ str "input[id=\x22name\x22]",
      p ++ str "input[name*=\x22first\x22 i][name*=\x22name\x22 i]",
      p ++ str "input[id*=\x22first\x22 i][id*=\x22name\x22 i]",
      p ++ str "input[placeholder*=\x22name\x22 i]:not([placeholder*=\x22user\x22 i]):not([placeholder*=\x22email\x22 i])" ]
  else []

/-- `AutomationParser.generateAuthButtonSelectors` of src/automationParser.ts
(lines 666-726). -/
def generateAuthButtonSelectors (authType selectorPfx : Str) : List Str :=
  let p := authPfx selectorPfx
  if authType = str "login" ∨ authType = str "signin" then
    [ p ++ str "button[type=\x22submit\x22]",
      p ++ str "input[type=\x22submit\x22]",
      p ++ str "button[id*=\x22login\x22 i]",
      p ++ str "button[id*=\x22signin\x22 i]",
      p ++ str "button[class*=\x22login\x22 i]",
      p ++ str "button[class*=\x22signin\x22 i]",
      p ++ str "button:has-text(\x22Log In\x22)",
      p ++ str "button:has-text(\x22Sign In\x22)",
      p ++ str "button:has-text(\x22Login\x22)",
      p ++ str "button:has-text(\x22Signin\x22)",
      p ++ str "input[value*=\x22Log In\x22 i]",
      p ++ str "input[value*=\x22Sign In\x22 i]",
      p ++ str "input[value*=\x22Login\x22 i]",
      p ++ str "a[href*=\x22login\x22 i]",
      p ++ str "a[href*=\x22signin\x22 i]",
      p ++ str "a:has-text(\x22Log In\x22)",
      p ++ str "a:has-text(\x22Sign In\x22)",
      p ++ str ".login-button",
      p ++ str ".signin-button",
      p ++ str "form[id*=\x22login\x22 i] button",
      p ++ str "form[id*=\x22signin\x22 i] button",
      p ++ str "form[class*=\x22login\x22 i] button",
      p ++ str "form[class*=\x22signin\x22 i] button" ]
  else
    [ p ++ str "button[type=\x22submit\x22]",
      p ++ str "input[type=\x22submit\x22]",
      p ++ str "button[id*=\x22signup\x22 i]",
      p ++ str "button[id*=\x22register\x22 i]",
      p ++ str "button[id*=\x22create\x22 i]",
      p ++ str "button[class*=\x22signup\x22 i]",
      p ++ str "button[class*=\x22register\x22 i]",
      p ++ str "button:has-text(\x22Sign Up\x22)",
      p ++ str "button:has-text(\x22Register\x22)",
      p ++ str "button:has-text(\x22Create Account\x22)",
      p ++ str "button:has-text(\x22Join\x22)",
      p ++ str "input[value*=\x22Sign Up\x22 i]",
      p ++ str "input[value*=\x22Register\x22 i]",
      p ++ str "input[value*=\x22Create\x22 i]",
      p ++ str "a[href*=\x22signup\x22 i]",
      p ++ str "a[href*=\x22register\x22 i]",
      p ++ str "a:has-text(\x22Sign Up\x22)",
      p ++ str "a:has-text(\x22Register\x22)",
      p ++ str ".signup-button",
      p ++ str ".register-button",
      p ++ str "form[id*=\x22signup\x22 i] button",
      p ++ str "form[id*=\x22register\x22 i] button",
      p ++ str "form[class*=\x22signup\x22 i] button",
      p ++ str "form[class*=\x22register\x22 i] button" ]

/-- A page interaction performed by the generic authentication flow. -/
inductive AuthEvent where
  | fillEv (selector value : Str)
  | clickEv (selector : Str)
deriving DecidableEq

/-- The error-wrapping performed by the catch block of
`handleAuthentication`: `Failed to {authType}: {errorMessage}`. -/
def authFailMsg (authType msg : Str) : Str :=
  str "Failed to " ++ authType ++ str ": " ++ msg

/-- The generic authentication flow of `AutomationParser.handleAuthentication`
(src/automationParser.ts lines 486-562), reached when the page URL selects
no site-specific branch. Field resolution is `trySelectors` over the
dedicated selector lists; filling and clicking are recorded as events (the
browser driver side of `fill`/`click`/`waitForSelector` is outside the
embedding). A missing username, password, or submit button throws, and the
surrounding catch rethrows with the `Failed to ...` wrapper; a missing
optional name or confirm-password field is skipped. -/
def handleAuthGeneric (dom : DomModel) (username password authType selectorPfx fullname : Str) :
    Except Str (List AuthEvent) :=
  match trySelectors dom (generateAuthFieldSelectors (str "username") selectorPfx) with
  | none => .error (authFailMsg authType (str "Could not find username/email field"))
  | some usernameSelector =>
    let nameEvents :=
      if authType = str "signup" ∧ fullname ≠ [] then
        match trySelectors dom (generateAuthFieldSelectors (str "name") selectorPfx) with
        | some nameSelector => [AuthEvent.fillEv nameSelector fullname]
        | none => []
      else []
    match trySelectors dom (generateAuthFieldSelectors (str "password") selectorPfx) with
    | none => .error (authFailMsg authType (str "Could not find password field"))
    | some passwordSelector =>
      let confirmEvents :=
        if authType = str "signup" then
          match trySelectors dom (generateAuthFieldSelectors (str "confirm-password") selectorPfx) with
          | some confirmSelector => [AuthEvent.fillEv confirmSelector password]
          | none => []
        else []
      match trySelectors dom (generateAuthButtonSelectors authType selectorPfx) with
      | none =>
        .error (authFailMsg authType (str "Could not find " ++ authType ++ str " button"))
      | some buttonSelector =>
        .ok ([AuthEvent.fillEv usernameSelector username] ++ nameEvents
             ++ [AuthEvent.fillEv passwordSelector password] ++ confirmEvents
             ++ [AuthEvent.clickEv buttonSelector])

end Stagehand

namespace Stagehand.Part0

/-- An `ActionDefinition` record of src/unnamed/part_000. -/
structure ActionDefinition where
  keyword : Str
  description : Str
  parameters : List Str
deriving DecidableEq

/-- The `availableActions` table of src/unnamed/part_000, in source order. -/
def availableActions : List ActionDefinition :=
  [ { keyword := str "goto", description := str "Navigates to a specific URL",
      parameters := [str "url"] },
    { keyword := str "click", description := str "Clicks an element matching the selector",
      parameters := [str "selector"] },
    { keyword := str "type", description := str "Types text into an input field",
      parameters := [str "selector", str "text"] },
    { keyword := str "waitForSelector", description := str "Waits for an element to appear",
      parameters := [str "selector"] },
    { keyword := str "screenshot", description := str "Takes a screenshot of the page",
      parameters := [str "path"] },
    { keyword := str "extractHTML", description := str "Extracts HTML content from an element",
      parameters := [str "selector"] },
    { keyword := str "extractText", description := str "Extracts text content from an element",
      parameters := [str "selector"] },
    { keyword := str "wait", description := str "Waits for a specific time",
      parameters := [str "milliseconds"] },
    { keyword := str "scrollIntoView", description := str "Scrolls to an element",
      parameters := [str "selector"] },
    { keyword := str "evaluate", description := str "Runs custom JavaScript",
      parameters := [str "script"] },
    { keyword := str "selectOption", description := str "Selects an option from a dropdown",
      parameters := [str "selector", str "value"] },
    { keyword := str "check", description := str "Checks a checkbox",
      parameters := [str "selector"] },
    { keyword := str "uncheck", description := str "Unchecks a checkbox",
      parameters := [str "selector"] },
    { keyword := str "hover", description := str "Hovers over an element",
      parameters := [str "selector"] },
    { keyword := str "pressKey", description := str "Presses a keyboard key",
      parameters := [str "key"] },
    { keyword := str "uploadFile", description := str "Uploads a file",
      parameters := [str "selector", str "filePath"] },
    { keyword := str "waitForNavigation", description := str "Waits for page navigation to complete",
      parameters := [] },
    { keyword := str "getCookies", description := str "Gets browser cookies",
      parameters := [] },
    { keyword := str "setCookies", description := str "Sets browser cookies",
      parameters := [str "cookies"] },
    { keyword := str "dragAndDrop", description := str "Drags and drops elements",
      parameters := [str "sourceSelector", str "targetSelector"] },
    { keyword := str "inspectPage", description := str "Shows common selectors on the current page",
      parameters := [] },
    { keyword := str "smartClick", description := str "Clicks an element using smart selection",
      parameters := [str "description"] },
    { keyword := str "findElement", description := str "Find elements matching a text or description",
      parameters := [str "text"] } ]

/-- Scanner loop of `splitByCommaOutsideQuotes` (src/unnamed/part_000 lines
92-126). `prev` is the previously scanned character (`none` at index 0), so
the JavaScript escape test `i === 0 || input[i-1] !== '\\'` is
`!(prev == some bslashC)`; the quote-state update runs before the comma
test, exactly as in the source loop body. -/
def qUpdate (c : Char) (prev : Option Char) (inQuotes : Bool) (quoteChar : Char) : Bool × Char :=
  if (c == dquoteC || c == squoteC) && !(prev == some bslashC) then
    if !inQuotes then (true, c)
    else if c == quoteChar then (false, quoteChar)
    else (inQuotes, quoteChar)
  else (inQuotes, quoteChar)

/-- The character-consuming loop of `splitByCommaOutsideQuotes`: run the
quote-state update, then either split at an unquoted comma or append the
character to the current segment. -/
def sbGo : Str → Option Char → Bool → Char → Str → List Str
  | [], _, _, _, current => if current.isEmpty then [] else [current]
  | c :: rest, prev, inQuotes, quoteChar, current =>
    let qstate : Bool × Char := qUpdate c prev inQuotes quoteChar
    if c == ',' && !qstate.1 then
      current :: sbGo rest (some c) qstate.1 qstate.2 []
    else
      sbGo rest (some c) qstate.1 qstate.2 (current ++ [c])

/-- `AutomationParser.splitByCommaOutsideQuotes` of src/unnamed/part_000:
split on commas, keeping text within quotes together, and push the final
segment only when it is non-empty (JavaScript `if (current)`). -/
def splitByCommaOutsideQuotes (input : Str) : List Str :=
  sbGo input none false ' ' []

/-- A parsed instruction `{ action, params }` of src/unnamed/part_000. -/
structure P0Parsed where
  action : Str
  params : List Str
deriving DecidableEq

/-- The matching loop of `parseInstruction` in src/unnamed/part_000: the
first action whose keyword is a case-insensitive prefix of the instruction
wins; multi-parameter actions split the remainder with
`splitByCommaOutsideQuotes` and trim each piece, single-parameter actions
take the whole remainder. -/
def findMatch (normalizedInstruction : Str) : List ActionDefinition → Option P0Parsed
  | [] => none
  | action :: rest =>
    if startsWithStr (toLowerStr normalizedInstruction) (toLowerStr action.keyword) then
      let paramPart := trimStr (normalizedInstruction.drop action.keyword.length)
      if paramPart.isEmpty && action.parameters.isEmpty then
        some { action := action.keyword, params := [] }
      else if action.parameters.length > 1 then
        some { action := action.keyword,
               params := (splitByCommaOutsideQuotes paramPart).map trimStr }
      else
        some { action := action.keyword, params := [paramPart] }
    else findMatch normalizedInstruction rest

/-- `AutomationParser.parseInstruction` of src/unnamed/part_000 (lines
49-87): normalize by trimming, then match against `availableActions`. -/
def parseInstruction (instruction : Str) : Option P0Parsed :=
  findMatch (trimStr instruction) availableActions

end Stagehand.Part0

namespace Stagehand

/-- The per-instruction outcome recorded by `processInstructions`:
`{ result, success: true }`, the synthetic
`{ result: "Skipped comment line", success: true }` pushed for comment
lines, or `{ error, success: false }`. -/
inductive InstrOutcome (α : Type) where
  | success (result : α)
  | skippedComment
  | failure (errorMessage : Str)
deriving DecidableEq

/-- The `success` flag of the recorded result object. -/
def InstrOutcome.isSuccess {α : Type} : InstrOutcome α → Bool
  | .success _ => true
  | .skippedComment => true
  | .failure _ => false

/-- One entry of the result list returned by `processInstructions`. -/
structure ExecutionResult (α : Type) where
  instruction : Str
  outcome : InstrOutcome α
deriving DecidableEq

/-- `AutomationParser.processInstructions` of src/automationParser.ts
(lines 831-865). `σ` is the state the run threads through (the active page
and the browser session), `reconcile` is the pre-dispatch resynchronization
to the context's most recent page, and `runAct` is the execution oracle for
`executeAction`: given the state, action key, and parameters it yields the
handler's outcome (`Except.error` when the handler throws, caught by the
source's try block) and the state afterwards. A parsed comment line pushes
the synthetic success result and continues without touching the state; a
parse error surfaces as the `Parse Error:`-prefixed failure result thrown
by `processInstruction` and caught by the loop. -/
def processInstructions {σ α : Type} (st : ParserState) (reconcile : σ → σ)
    (runAct : σ → Str → List Str → Except Str α × σ) : σ → List Str → List (ExecutionResult α)
  | _, [] => []
  | s, instruction :: rest =>
    match parseInstruction st instruction with
    | .ok parsed =>
      if parsed.actionKey = str "skip" then
        { instruction := instruction, outcome := .skippedComment }
          :: processInstructions st reconcile runAct s rest
      else
        let s₁ := reconcile s
        match runAct s₁ parsed.actionKey parsed.params with
        | (.ok v, s₂) =>
          { instruction := instruction, outcome := .success v }
            :: processInstructions st reconcile runAct s₂ rest
        | (.error e, s₂) =>
          { instruction := instruction, outcome := .failure e }
            :: processInstructions st reconcile runAct s₂ rest
    | .err e =>
      let s₁ := reconcile s
      { instruction := instruction, outcome := .failure (str "Parse Error: " ++ e) }
        :: processInstructions st reconcile runAct s₁ rest

/-- The state in which `processInstructions` leaves the run after a batch:
the same state threading as `processInstructions`, without the result
list. -/
def runnerFinalState {σ α : Type} (st : ParserState) (reconcile : σ → σ)
    (runAct : σ → Str → List Str → Except Str α × σ) : σ → List Str → σ
  | s, [] => s
  | s, instruction :: rest =>
    match parseInstruction st instruction with
    | .ok parsed =>
      if parsed.actionKey = str "skip" then
        runnerFinalState st reconcile runAct s rest
      else
        let s₁ := reconcile s
        runnerFinalState st reconcile runAct (runAct s₁ parsed.actionKey parsed.params).2 rest
    | .err _ =>
      runnerFinalState st reconcile runAct (reconcile s) rest

end Stagehand

namespace Stagehand

/-- A page on which no selector matches anything. -/
def emptyPage : DomModel := fun _ => none

/-- A parser instance over the standard registry (the page component is the
empty page; `parseInstruction` never reads it). -/
def standardParserState : ParserState :=
  { page := emptyPage, registeredActions := standardRegistry }

/-- A plainly visible element: non-zero box, an offset parent, and
non-hiding computed styles. -/
def visibleElDemo : ElementInfo :=
  { rectWidth := 120, rectHeight := 24, isHTMLElement := true, hasOffsetParent := true,
    styleVisibility := str "visible", styleDisplay := str "block", styleOpacity := str "1" }

/-- An element that exists in the DOM but is hidden (display none, no
offset parent). -/
def hiddenElDemo : ElementInfo :=
  { rectWidth := 120, rectHeight := 24, isHTMLElement := true, hasOffsetParent := false,
    styleVisibility := str "visible", styleDisplay := str "none", styleOpacity := str "1" }

/-- The scenario of spec section 8: a hidden `#search` ranked before a
visible `[data-testid="search"]`. -/
def searchScenarioDom : DomModel := fun s =>
  if s = str "#search" then some hiddenElDemo
  else if s = str "[data-testid=\x22search\x22]" then some visibleElDemo
  else none

end Stagehand

namespace Stagehand

/-- Claim C6: `parseInstruction` is a pure, deterministic function of the
instruction text and the (constructor-initialized, never mutated) action
registry; it does not read the active page, so two invocations on the same
text in any two page states yield identical results. -/
theorem c6_parse_independent_of_page_state
    (page₁ page₂ : DomModel) (reg : Registry) (line : Str) :
    parseInstruction { page := page₁, registeredActions := reg } line
      = parseInstruction { page := page₂, registeredActions := reg } line := rfl

/-- Claim C7: the selector candidate generator is a pure function whose
output on every target description is a fixed-length (hence finite,
non-empty) list whose first element is the literal input unmodified. -/
theorem c7_generateSmartSelectors_head_literal_and_finite (selector : Str) :
    (generateSmartSelectors selector).head? = some selector
    ∧ (generateSmartSelectors selector).length = 20 := ⟨rfl, rfl⟩

/-- Claim C3: `trySelectors` returns exactly the first candidate, in list
order, that matches an element passing the visibility evaluation; existing
but invisible candidates are skipped and resolution continues, and when no
candidate is present-and-visible the resolver returns `none` instead of
throwing. In particular, on the spec's scenario a hidden `#search` loses to
the later visible `[data-testid="search"]`. -/
theorem c3_trySelectors_first_present_and_visible :
    (∀ (dom : DomModel) (sels : List Str),
       trySelectors dom sels = sels.find? (fun s => ((dom s).map isVisibleEl).getD false))
    ∧ trySelectors searchScenarioDom [str "#search", str "[data-testid=\x22search\x22]"]
        = some (str "[data-testid=\x22search\x22]") := by
  constructor
  · intro dom sels
    induction sels with
    | nil => rfl
    | cons s rest ih =>
      simp only [trySelectors]
      cases h : dom s with
      | none => simp [List.find?, h, ih]
      | some el =>
        cases hv : isVisibleEl el with
        | false => simp [List.find?, h, hv, ih]
        | true => simp [List.find?, h, hv]
  · decide

end Stagehand

namespace Stagehand

/-- Claim C8: authentication-type inference classifies a page as signup
exactly when the signup-keyword match count strictly exceeds the
login-keyword match count, or the page has a non-email/non-password name
field, or a confirm-password field; otherwise it classifies as login. The
spec's two synthetic pages are checked concretely. -/
theorem c8_detectAuthenticationType_signup_condition :
    (∀ p : AuthPageModel,
       (detectAuthenticationType p = str "signup" ↔
          (signupKeywords.countP (fun kw => containsSubstr (toLowerStr p.bodyText) (toLowerStr kw))
             > loginKeywords.countP (fun kw => containsSubstr (toLowerStr p.bodyText) (toLowerStr kw))
           ∨ p.hasNameField = true ∨ p.hasConfirmPasswordField = true))
       ∧ (detectAuthenticationType p = str "signup" ∨ detectAuthenticationType p = str "login"))
    ∧ detectAuthenticationType
        { bodyText := str "Create your account", hasNameField := false,
          hasConfirmPasswordField := true } = str "signup"
    ∧ detectAuthenticationType
        { bodyText := str "Sign in to continue", hasNameField := false,
          hasConfirmPasswordField := false } = str "login" := by
  refine ⟨fun p => ?_, by decide, by decide⟩
  unfold detectAuthenticationType
  constructor
  · constructor
    · intro h
      by_contra hc
      push_neg at hc
      rw [if_neg ?_] at h
      · exact absurd h (by decide)
      · simp only [Bool.or_eq_true, decide_eq_true_eq, not_or]
        exact ⟨⟨by omega, by simp [hc.2.1]⟩, by simp [hc.2.2]⟩
    · intro h
      rw [if_pos ?_]
      simp only [Bool.or_eq_true, decide_eq_true_eq]
      rcases h with h | h | h
      · exact Or.inl (Or.inl h)
      · exact Or.inl (Or.inr h)
      · exact Or.inr h
  · by_cases hb :
      (decide (signupKeywords.countP (fun kw => containsSubstr (toLowerStr p.bodyText) (toLowerStr kw))
         > loginKeywords.countP (fun kw => containsSubstr (toLowerStr p.bodyText) (toLowerStr kw)))
       || p.hasNameField || p.hasConfirmPasswordField) = true
    · exact Or.inl (by rw [if_pos hb])
    · exact Or.inr (by rw [if_neg (by simpa using hb)])

end Stagehand

namespace Stagehand

/-- Claim C1: for every input list of instruction lines the runner returns
exactly one `ExecutionResult` per input instruction, carrying that
instruction, in input order (the mapped-instruction equation), and running
a batch split anywhere equals running the prefix and then continuing with
the suffix from the reached state — so a parse failure or handler error on
any instruction never prevents the execution of the subsequent ones. -/
theorem c1_runner_one_result_per_instruction_in_order
    (σ α : Type) (st : ParserState) (recon : σ → σ)
    (runAct : σ → Str → List Str → Except Str α × σ) :
    (∀ (s : σ) (instrs : List Str),
       (processInstructions st recon runAct s instrs).map (fun r => r.instruction) = instrs)
    ∧ (∀ (s : σ) (xs ys : List Str),
       processInstructions st recon runAct s (xs ++ ys)
         = processInstructions st recon runAct s xs
           ++ processInstructions st recon runAct (runnerFinalState st recon runAct s xs) ys) := by
  constructor
  · intro s instrs
    induction instrs generalizing s with
    | nil => rfl
    | cons i rest ih =>
      simp only [processInstructions]
      cases hp : parseInstruction st i with
      | ok parsed =>
        by_cases hskip : parsed.actionKey = str "skip"
        · simp [hskip, ih]
        · simp only [if_neg hskip]
          rcases hr : runAct (recon s) parsed.actionKey parsed.params with ⟨out, s₂⟩
          cases out with
          | ok v => simp [ih]
          | error e => simp [ih]
      | err e => simp [ih]
  · intro s xs ys
    induction xs generalizing s with
    | nil => rfl
    | cons i rest ih =>
      simp only [processInstructions, runnerFinalState, List.cons_append]
      cases hp : parseInstruction st i with
      | ok parsed =>
        by_cases hskip : parsed.actionKey = str "skip"
        · simp [hskip, ih]
        · simp only [if_neg hskip]
          rcases hr : runAct (recon s) parsed.actionKey parsed.params with ⟨out, s₂⟩
          cases out with
          | ok v => simp [ih]
          | error e => simp [ih]
      | err e => simp [ih]

end Stagehand

namespace Stagehand

/-- Claim C10: every trimmed instruction line whose lowercase form starts
with `"for "` parses to the `skip` action with no parameters; the runner
records a synthetic success result for it and continues with the rest of
the batch from the unchanged state — the execution oracle is never invoked
for that line, even if it was meant as a command. -/
theorem c10_for_lines_treated_as_comments
    (σ α : Type) (st : ParserState) (recon : σ → σ)
    (runAct : σ → Str → List Str → Except Str α × σ) (s : σ) (line : Str) (rest : List Str)
    (h : startsWithStr (toLowerStr (trimStr line)) (str "for ") = true) :
    parseInstruction st line = .ok { actionKey := str "skip", params := [] }
    ∧ processInstructions st recon runAct s (line :: rest)
        = { instruction := line, outcome := InstrOutcome.skippedComment }
            :: processInstructions st recon runAct s rest
    ∧ (InstrOutcome.skippedComment : InstrOutcome α).isSuccess = true := by
  have hne : ¬(trimStr line = []) := by
    intro he
    rw [he] at h
    simp [toLowerStr, startsWithStr, str, List.isPrefixOf] at h
  have hparse : parseInstruction st line = .ok { actionKey := str "skip", params := [] } := by
    unfold parseInstruction
    simp only [if_neg hne, h, if_true]
  refine ⟨hparse, ?_, rfl⟩
  simp [processInstructions, hparse]

/-- Witness for C10 at the concrete line `"For each result click it"`. -/
theorem c10_witness :
    parseInstruction standardParserState (str "For each result click it")
      = .ok { actionKey := str "skip", params := [] }
    ∧ processInstructions standardParserState id (fun s _ _ => (Except.ok (), s)) ()
        [str "For each result click it"]
        = [{ instruction := str "For each result click it",
             outcome := InstrOutcome.skippedComment }] := by
  have h := c10_for_lines_treated_as_comments Unit Unit standardParserState id
    (fun s _ _ => (Except.ok (), s)) () (str "For each result click it") [] (by decide)
  exact ⟨h.1, by rw [h.2.1]; rfl⟩

end Stagehand

namespace Stagehand

/-- Counterexample to claim C4: `findelement` is registered with the
two-word keyword phrase `find element` and minimum one parameter, and the
line `"find element searchBox"` begins token-by-token with that phrase and
supplies one parameter, yet `parseInstruction` rejects it with
`Unknown action key: find.` instead of returning the `findelement` key —
the registered keyword phrases are never consulted. -/
theorem c4_counterexample_find_element_not_matched :
    lookupAction (str "findelement") standardRegistry
      = some { keywords := [str "find", str "element"], minParams := some 1,
               paramUsage := str "<selector>" }
    ∧ parseInstruction standardParserState (str "find element searchBox")
        = .err (str "Unknown action key: find.")
    ∧ parseInstruction standardParserState (str "find element searchBox")
        ≠ .ok { actionKey := str "findelement", params := [str "searchBox"] } := by
  refine ⟨by decide, by decide, by decide⟩

end Stagehand

namespace Stagehand

/-- Amended claim C4: `parseInstruction` does not match registered keyword
phrases; it recognizes (i) any line whose lowercased first token equals a
registry key and which supplies the declared minimum parameters, returning
that key, and (ii) exactly the three hard-coded phrases `go to`, `sign in`
and `sign up`, which are checked before the single-token matching — alias
phrases such as `find element`, `signin` or `log in` are never matched. -/
theorem c4_amended_first_token_and_hardcoded_phrases :
    (∀ (pg : DomModel) (line t : Str) (ps : List Str) (act : RegisteredAction),
       trimStr line = line →
       startsWithStr (toLowerStr line) (str "for ") = false →
       startsWithStr (toLowerStr line) (str "go to ") = false →
       startsWithStr (toLowerStr line) (str "sign in ") = false →
       startsWithStr (toLowerStr line) (str "sign up ") = false →
       splitWs line = t :: ps →
       lookupAction (toLowerStr t) standardRegistry = some act →
       (∀ m, act.minParams = some m → ¬(0 < m ∧ ps.length < m)) →
       parseInstruction { page := pg, registeredActions := standardRegistry } line
         = .ok { actionKey := toLowerStr t, params := ps })
    ∧ parseInstruction standardParserState (str "go to example.com")
        = .ok { actionKey := str "goto", params := [str "example.com"] }
    ∧ parseInstruction standardParserState (str "sign in myUser myPass")
        = .ok { actionKey := str "login", params := [str "myUser", str "myPass"] }
    ∧ parseInstruction standardParserState (str "sign up a@b.com pw123")
        = .ok { actionKey := str "signup", params := [str "a@b.com", str "pw123"] } := by
  refine ⟨?_, by decide, by decide, by decide⟩
  intro pg line t ps act htrim hfor hgoto hsin hsup hsplit hkey harity
  have hne : ¬(trimStr line = []) := by
    rw [htrim]
    intro he
    rw [he] at hsplit
    simp [splitWs, splitWsAux] at hsplit
  unfold parseInstruction
  rw [if_neg hne]
  simp only [htrim, hfor, hgoto, hsin, hsup, Bool.false_eq_true, if_false, hsplit, hkey,
    List.headD_cons, List.drop_succ_cons, List.drop_zero]
  cases hm : act.minParams with
  | none => rfl
  | some m =>
    have := harity m hm
    simp only [if_neg this]

end Stagehand

namespace Stagehand

/-- Witness for the amended C4 at the concrete line `"click #submitBtn"`. -/
theorem c4_amended_witness :
    parseInstruction { page := emptyPage, registeredActions := standardRegistry }
      (str "click #submitBtn")
      = .ok { actionKey := str "click", params := [str "#submitBtn"] } := by
  have h := c4_amended_first_token_and_hardcoded_phrases.1 emptyPage
    (str "click #submitBtn") (str "click") [str "#submitBtn"]
    { keywords := [str "click"], minParams := some 1, paramUsage := str "<selector>",
      opensNewPage := true }
    (by decide) (by decide) (by decide) (by decide) (by decide) (by decide) (by decide)
    (by intro m hm hcon; simp only [Option.some.injEq] at hm; subst hm; exact absurd hcon (by decide))
  exact h

end Stagehand

namespace Stagehand

set_option maxRecDepth 100000 in
/-- Claim C5: an instruction line whose registered action is identified but
which supplies fewer parameters than the action's declared minimum parses
to a failure whose message contains that action's usage string (the parser
is a total function returning `ok` or `err`, never throwing). The three
conjuncts cover the generic first-token match and the hard-coded `sign in`
and `sign up` phrase forms, whose failure messages contain the usage
strings of the `login` and `signup` actions. -/
theorem c5_insufficient_params_failure_carries_usage :
    (∀ (pg : DomModel) (line t : Str) (ps : List Str) (act : RegisteredAction) (m : Nat),
       trimStr line = line →
       startsWithStr (toLowerStr line) (str "for ") = false →
       startsWithStr (toLowerStr line) (str "go to ") = false →
       startsWithStr (toLowerStr line) (str "sign in ") = false →
       startsWithStr (toLowerStr line) (str "sign up ") = false →
       splitWs line = t :: ps →
       lookupAction (toLowerStr t) standardRegistry = some act →
       act.minParams = some m → 0 < m → ps.length < m →
       ∃ msg, parseInstruction { page := pg, registeredActions := standardRegistry } line
                = .err msg
              ∧ act.paramUsage <:+: msg)
    ∧ (∀ (pg : DomModel) (line : Str),
       trimStr line = line →
       startsWithStr (toLowerStr line) (str "for ") = false →
       startsWithStr (toLowerStr line) (str "go to ") = false →
       startsWithStr (toLowerStr line) (str "sign in ") = true →
       (splitWs line).length < 4 →
       ∃ msg, parseInstruction { page := pg, registeredActions := standardRegistry } line
                = .err msg
              ∧ (str "<username> <password> [selector-prefix]") <:+: msg)
    ∧ (∀ (pg : DomModel) (line : Str),
       trimStr line = line →
       startsWithStr (toLowerStr line) (str "for ") = false →
       startsWithStr (toLowerStr line) (str "go to ") = false →
       startsWithStr (toLowerStr line) (str "sign in ") = false →
       startsWithStr (toLowerStr line) (str "sign up ") = true →
       (splitWs line).length < 4 →
       ∃ msg, parseInstruction { page := pg, registeredActions := standardRegistry } line
                = .err msg
              ∧ (str "<email> <password> [username] [country]") <:+: msg) := by
  refine ⟨?_, ?_, ?_⟩
  · intro pg line t ps act m htrim hfor hgoto hsin hsup hsplit hkey hm hmpos hlen
    have hne : ¬(trimStr line = []) := by
      rw [htrim]
      intro he
      rw [he] at hsplit
      simp [splitWs, splitWsAux] at hsplit
    refine ⟨str "Insufficient parameters for " ++ toLowerStr t ++ str ". Expected: "
      ++ act.paramUsage, ?_, ?_⟩
    · unfold parseInstruction
      rw [if_neg hne]
      simp only [htrim, hfor, hgoto, hsin, hsup, Bool.false_eq_true, if_false, hsplit, hkey,
        List.headD_cons, List.drop_succ_cons, List.drop_zero, hm]
      rw [if_pos ⟨hmpos, hlen⟩]
    · exact (List.suffix_append _ _).isInfix
  · intro pg line htrim hfor hgoto hsin hlen
    have hne : ¬(trimStr line = []) := by
      rw [htrim]
      intro he
      rw [he] at hsin
      simp [toLowerStr, startsWithStr, str, List.isPrefixOf] at hsin
    refine ⟨str "Insufficient parameters for sign in. Expected: sign in <username> <password> [selector-prefix]", ?_, ?_⟩
    · unfold parseInstruction
      rw [if_neg hne]
      simp only [htrim, hfor, hgoto, hsin, Bool.false_eq_true, if_false, if_true]
      rw [if_pos hlen]
    · decide
  · intro pg line htrim hfor hgoto hsin hsup hlen
    have hne : ¬(trimStr line = []) := by
      rw [htrim]
      intro he
      rw [he] at hsup
      simp [toLowerStr, startsWithStr, str, List.isPrefixOf] at hsup
    refine ⟨str "Insufficient parameters for sign up. Expected: sign up <email> <password> [username] [country]", ?_, ?_⟩
    · unfold parseInstruction
      rw [if_neg hne]
      simp only [htrim, hfor, hgoto, hsin, hsup, Bool.false_eq_true, if_false, if_true]
      rw [if_pos hlen]
    · decide

end Stagehand

namespace Stagehand

/-- Witness for C5 at the concrete line `"login myUser"` (one parameter,
minimum two): the failure message carries the login usage string. -/
theorem c5_witness :
    ∃ msg, parseInstruction { page := emptyPage, registeredActions := standardRegistry }
             (str "login myUser") = .err msg
           ∧ (str "<username> <password> [selector-prefix]") <:+: msg := by
  exact c5_insufficient_params_failure_carries_usage.1 emptyPage
    (str "login myUser") (str "login") [str "myUser"]
    { keywords := [str "login", str "sign in", str "signin", str "log in"],
      minParams := some 2, paramUsage := str "<username> <password> [selector-prefix]" } 2
    (by decide) (by decide) (by decide) (by decide) (by decide) (by decide) (by decide)
    rfl (by decide) (by decide)

end Stagehand

namespace Stagehand.Part0

/-- Outside quotes, the scanner's behavior does not depend on the carried
`quoteChar` (it is only read while inside quotes). -/
lemma sbGo_quoteChar_irrel (input : Str) :
    ∀ (p : Option Char) (cur : Str) (qc₁ qc₂ : Char),
      sbGo input p false qc₁ cur = sbGo input p false qc₂ cur := by
  induction input with
  | nil => intro p cur qc₁ qc₂; rfl
  | cons c rest ih =>
    intro p cur qc₁ qc₂
    simp only [sbGo]
    by_cases hA : ((c == dquoteC || c == squoteC) && !(p == some bslashC)) = true
    · have h₁ : qUpdate c p false qc₁ = (true, c) := by simp [qUpdate, hA]
      have h₂ : qUpdate c p false qc₂ = (true, c) := by simp [qUpdate, hA]
      rw [h₁, h₂]
    · have hA' := Bool.eq_false_iff.mpr hA
      have h₁ : qUpdate c p false qc₁ = (false, qc₁) := by simp [qUpdate, hA']
      have h₂ : qUpdate c p false qc₂ = (false, qc₂) := by simp [qUpdate, hA']
      rw [h₁, h₂]
      by_cases hc : (c == ',') = true
      · simp only [Bool.not_false, Bool.and_true, hc, if_true]
        rw [ih (some c) [] qc₁ qc₂]
      · have hc' := Bool.eq_false_iff.mpr hc
        simp only [Bool.not_false, Bool.and_true, hc', Bool.false_eq_true, if_false]
        rw [ih (some c) (cur ++ [c]) qc₁ qc₂]

/-- Outside quotes, the scanner's behavior depends on the previous
character only through the escape test, so any two non-backslash previous
characters are interchangeable. -/
lemma sbGo_prev_irrel (input : Str) (p₁ p₂ : Option Char) (qc : Char) (cur : Str)
    (h₁ : (p₁ == some bslashC) = false) (h₂ : (p₂ == some bslashC) = false) :
    sbGo input p₁ false qc cur = sbGo input p₂ false qc cur := by
  cases input with
  | nil => rfl
  | cons c rest =>
    simp only [sbGo]
    have hq : qUpdate c p₁ false qc = qUpdate c p₂ false qc := by
      simp [qUpdate, h₁, h₂]
    rw [hq]

/-- A run of characters containing no comma and no quote character is
scanned verbatim into the current segment, and the first unquoted comma
after it closes that segment. -/
lemma sbGo_plain_run (a : Str)
    (h : ∀ c ∈ a, (c == ',') = false ∧ (c == dquoteC) = false ∧ (c == squoteC) = false) :
    ∀ (b : Str) (p : Option Char) (qc : Char) (cur : Str),
      sbGo (a ++ ',' :: b) p false qc cur = (cur ++ a) :: sbGo b (some ',') false qc [] := by
  induction a with
  | nil =>
    intro b p qc cur
    simp only [List.nil_append, sbGo]
    have hq : qUpdate ',' p false qc = (false, qc) := by
      simp [qUpdate, dquoteC, squoteC]
    rw [hq]
    simp
  | cons c a' ih =>
    intro b p qc cur
    obtain ⟨hc, hd, hs⟩ := h c (List.mem_cons_self c a')
    have h' : ∀ x ∈ a', (x == ',') = false ∧ (x == dquoteC) = false ∧ (x == squoteC) = false :=
      fun x hx => h x (List.mem_cons_of_mem c hx)
    simp only [List.cons_append, sbGo]
    have hq : qUpdate c p false qc = (false, qc) := by
      simp [qUpdate, hd, hs]
    rw [hq]
    simp only [Bool.not_false, Bool.and_true, hc, Bool.false_eq_true, if_false, List.append_eq]
    rw [ih h' b (some c) qc (cur ++ [c])]
    simp

end Stagehand.Part0

namespace Stagehand

set_option maxRecDepth 100000 in
/-- Counterexample to claim C2: parsing `"type searchBox, hello, world"`
does not yield the two parameters `["searchBox", "hello, world"]`. The
part_000 parser (the one with the quote-aware comma splitter) splits at
every unquoted comma and yields the three parameters
`["searchBox", "hello", "world"]`; the current parser in
src/automationParser.ts performs no comma splitting at all and yields the
three whitespace tokens `["searchBox,", "hello,", "world"]`. -/
theorem c2_counterexample_type_three_params :
    Part0.parseInstruction (str "type searchBox, hello, world")
      = some { action := str "type", params := [str "searchBox", str "hello", str "world"] }
    ∧ Part0.parseInstruction (str "type searchBox, hello, world")
      ≠ some { action := str "type", params := [str "searchBox", str "hello, world"] }
    ∧ parseInstruction standardParserState (str "type searchBox, hello, world")
      = .ok { actionKey := str "type", params := [str "searchBox,", str "hello,", str "world"] } := by
  refine ⟨by decide, by decide, by decide⟩

set_option maxRecDepth 100000 in
/-- Amended claim C2: in the part_000 parser, multi-parameter actions split
the remaining text at every comma that lies outside quotes — formally, a
segment free of commas and quote characters is always closed at the next
unquoted comma — while a comma inside a quoted substring is not a
separator. Hence `"type searchBox, hello, world"` parses to the three
parameters `["searchBox", "hello", "world"]`, and the quoted variant
`"type searchBox, 'hello, world'"` keeps the internal comma, parsing to
two parameters. -/
theorem c2_amended_unquoted_commas_separate :
    (∀ (a b : Str), (∀ c ∈ a, c ≠ ',' ∧ c ≠ dquoteC ∧ c ≠ squoteC) →
       Part0.splitByCommaOutsideQuotes (a ++ ',' :: b)
         = a :: Part0.splitByCommaOutsideQuotes b)
    ∧ Part0.parseInstruction (str "type searchBox, hello, world")
        = some { action := str "type", params := [str "searchBox", str "hello", str "world"] }
    ∧ Part0.parseInstruction (str "type searchBox, \x27hello, world\x27")
        = some { action := str "type", params := [str "searchBox", str "\x27hello, world\x27"] } := by
  refine ⟨?_, by decide, by decide⟩
  intro a b h
  have h' : ∀ c ∈ a, (c == ',') = false ∧ (c == dquoteC) = false ∧ (c == squoteC) = false := by
    intro c hc
    rcases h c hc with ⟨h1, h2, h3⟩
    exact ⟨beq_eq_false_iff_ne.mpr h1, beq_eq_false_iff_ne.mpr h2, beq_eq_false_iff_ne.mpr h3⟩
  unfold Part0.splitByCommaOutsideQuotes
  rw [Part0.sbGo_plain_run a h' b none ' ' []]
  simp only [List.nil_append]
  rw [Part0.sbGo_prev_irrel b (some ',') none ' ' [] (by decide) (by decide)]

set_option maxRecDepth 100000 in
/-- Witness for the amended C2: the segment `"ab"` (no commas or quotes) is
closed at the following unquoted comma. -/
theorem c2_amended_witness :
    Part0.splitByCommaOutsideQuotes (str "ab" ++ ',' :: str "cd")
      = str "ab" :: Part0.splitByCommaOutsideQuotes (str "cd") := by
  exact c2_amended_unquoted_commas_separate.1 (str "ab") (str "cd") (by decide)

end Stagehand

namespace Stagehand

/-- A page presenting exactly the three required authentication targets
(username field, password field, submit button) and nothing else — in
particular no full-name and no confirm-password field. -/
def c9RequiredOnlyDom : DomModel := fun s =>
  if s = str "input[id=\x22login_field\x22]" ∨ s = str "input[id=\x22password\x22]"
     ∨ s = str "button[type=\x22submit\x22]" then some visibleElDemo else none

set_option maxRecDepth 1000000 in
/-- Claim C9: in the generic authentication flow, a username/email field,
password field, or submit button that fails to resolve aborts the whole
attempt with a descriptive error naming the missing element, while the
optional full-name and confirm-password fields are skipped silently: if
the three required targets resolve, the flow succeeds regardless of the
optional lookups, and on a page with only the required targets the signup
flow performs exactly fill-username, fill-password, click-submit. -/
theorem c9_generic_auth_required_vs_optional
    (dom : DomModel) (username password authType pfx fullname : Str) :
    (trySelectors dom (generateAuthFieldSelectors (str "username") pfx) = none →
       handleAuthGeneric dom username password authType pfx fullname
         = .error (authFailMsg authType (str "Could not find username/email field")))
    ∧ (∀ us, trySelectors dom (generateAuthFieldSelectors (str "username") pfx) = some us →
       trySelectors dom (generateAuthFieldSelectors (str "password") pfx) = none →
       handleAuthGeneric dom username password authType pfx fullname
         = .error (authFailMsg authType (str "Could not find password field")))
    ∧ (∀ us ps, trySelectors dom (generateAuthFieldSelectors (str "username") pfx) = some us →
       trySelectors dom (generateAuthFieldSelectors (str "password") pfx) = some ps →
       trySelectors dom (generateAuthButtonSelectors authType pfx) = none →
       handleAuthGeneric dom username password authType pfx fullname
         = .error (authFailMsg authType (str "Could not find " ++ authType ++ str " button")))
    ∧ (∀ us ps bs, trySelectors dom (generateAuthFieldSelectors (str "username") pfx) = some us →
       trySelectors dom (generateAuthFieldSelectors (str "password") pfx) = some ps →
       trySelectors dom (generateAuthButtonSelectors authType pfx) = some bs →
       ∃ evs, handleAuthGeneric dom username password authType pfx fullname = .ok evs)
    ∧ handleAuthGeneric c9RequiredOnlyDom (str "alice") (str "pw123") (str "signup") []
        (str "Alice Example")
        = .ok [AuthEvent.fillEv (str "input[id=\x22login_field\x22]") (str "alice"),
               AuthEvent.fillEv (str "input[id=\x22password\x22]") (str "pw123"),
               AuthEvent.clickEv (str "button[type=\x22submit\x22]")] := by
  refine ⟨?_, ?_, ?_, ?_, by rfl⟩
  · intro hu
    simp only [handleAuthGeneric, hu]
  · intro us hu hp
    simp only [handleAuthGeneric, hu, hp]
  · intro us ps hu hp hb
    simp only [handleAuthGeneric, hu, hp, hb]
  · intro us ps bs hu hp hb
    simp only [handleAuthGeneric, hu, hp, hb]
    exact ⟨_, rfl⟩

end Stagehand

namespace Stagehand

set_option maxRecDepth 1000000 in
/-- Witness for C9: on an empty page the login attempt fails naming the
username/email field; on a page where every selector resolves, the attempt
succeeds. -/
theorem c9_witness :
    handleAuthGeneric emptyPage (str "u") (str "p") (str "login") [] []
      = .error (authFailMsg (str "login") (str "Could not find username/email field"))
    ∧ ∃ evs, handleAuthGeneric (fun _ => some visibleElDemo) (str "u") (str "p") (str "login") [] []
        = .ok evs := by
  constructor
  · exact (c9_generic_auth_required_vs_optional emptyPage
      (str "u") (str "p") (str "login") [] []).1 (by rfl)
  · exact (c9_generic_auth_required_vs_optional (fun _ => some visibleElDemo)
      (str "u") (str "p") (str "login") [] []).2.2.2.1
      (str "input[id=\x22login_field\x22]") (str "input[id=\x22password\x22]")
      (str "button[type=\x22submit\x22]") (by rfl) (by rfl) (by rfl)

end Stagehand
